import Mathlib

/-!
Verification development for the gform-submission-bot repository
(src/tempbot.py and src/gformhelper.py).

The Python source is shallowly embedded below.  Strings are modelled as
Lean Strings (the bot only handles ASCII job names, option labels and
temperature literals), Python slicing as takes/drops on the underlying
character list, Python int() on the decimal strings the bot produces as a
digit parser returning Option (none models a raised ValueError), and the
telegram job queue as an explicit list of jobs.  Fallible Python code
(KeyError, ValueError, TypeError, transport exceptions from requests) is
modelled with Option/Except.
-/

namespace TempBot

/-! ### String helpers mirroring the Python string operations -/

/-- Python slice s[:n] (ASCII strings). -/
def strTake (s : String) (n : Nat) : String := ⟨s.data.take n⟩

/-- Python slice s[n:] (ASCII strings). -/
def strDrop (s : String) (n : Nat) : String := ⟨s.data.drop n⟩

/-- Whether the first list is a prefix of the second, on characters. -/
def isPrefixChars : List Char → List Char → Bool
  | [], _ => true
  | _ :: _, [] => false
  | a :: as, b :: bs => a == b && isPrefixChars as bs

/-- Whether needle occurs as a contiguous substring of hay, on characters. -/
def containsChars : List Char → List Char → Bool
  | [], needle => needle.isEmpty
  | h :: t, needle => isPrefixChars needle (h :: t) || containsChars t needle

/-- Python `needle in hay` substring test. -/
def strContains (hay needle : String) : Bool := containsChars hay.data needle.data

/-- Split at the first occurrence of sep, returning the part before and the
part after.  Python str.split splits at every occurrence; the job names this
code splits ("HH:MM-extra_reminder-HH:MM", built from bare "HH:MM" parts)
contain the separator exactly once, where the two coincide. -/
def splitOnceChars (sep : List Char) : List Char → Option (List Char × List Char)
  | [] => none
  | h :: t =>
    if isPrefixChars sep (h :: t) then some ([], (h :: t).drop sep.length)
    else
      match splitOnceChars sep t with
      | some (a, b) => some (h :: a, b)
      | none => none

/-- Value of a decimal digit character. -/
def digitVal (c : Char) : Option Nat := if c.isDigit then some (c.toNat - 48) else none

/-- Accumulating decimal parser. -/
def pyIntChars : List Char → Nat → Option Nat
  | [], acc => some acc
  | c :: t, acc =>
    match digitVal c with
    | some d => pyIntChars t (acc * 10 + d)
    | none => none

/-- Python int(s) on the nonnegative decimal strings the bot manipulates
(job-name fragments such as "09", "00").  none models a raised ValueError
(non-digit input; Python whitespace/sign tolerance never arises for these
inputs). -/
def pyInt (s : String) : Option Nat :=
  match s.data with
  | [] => none
  | _ => pyIntChars s.data 0

/-- Python str(n).zfill(2) for a nonnegative integer n. -/
def zfill2 (n : Nat) : String := if n < 10 then "0" ++ toString n else toString n

/-- Characters 0-4 are digit, digit, colon, digit, digit. -/
def slotChars : List Char → Bool
  | a :: b :: c :: d :: e :: _ => a.isDigit && b.isDigit && c == ':' && d.isDigit && e.isDigit
  | _ => false

/-- REMINDER_JOB_NAME_REGEX.match(s): re.match anchors only at the start, so
any string beginning with two digits, a colon and two digits matches - in
particular the compound extra-reminder names also match. -/
def matchesSlotPattern (s : String) : Bool := slotChars s.data

/-- int(s[:2]) and int(s[3:]) as used on reminder names. -/
def parseTime (s : String) : Option (Nat × Nat) :=
  match pyInt (strTake s 2), pyInt (strDrop s 3) with
  | some h, some m => some (h, m)
  | _, _ => none

/-- Whether datetime.time(hour=int(s[:2]), minute=int(s[3:])) succeeds:
both fragments parse and lie in range (otherwise Python raises ValueError). -/
def validSlotB (s : String) : Bool :=
  match parseTime s with
  | some (h, m) => decide (h < 24) && decide (m < 60)
  | none => false

/-- ASCII uppercase of one character. -/
def upperChar (c : Char) : Char :=
  if c.isLower then Char.ofNat (c.toNat - 32) else c

/-- Python s.upper() on the ASCII strings "am"/"pm". -/
def pyUpper (s : String) : String := ⟨s.data.map upperChar⟩

/-- Python str(x / 10) for x in 360..399 and 350: these floats print with
exactly one decimal digit, e.g. "36.0", "39.9". -/
def pyStrTenths (n : Nat) : String := toString (n / 10) ++ "." ++ toString (n % 10)

/-- float(s), scaled to tenths, for the one-decimal temperature strings the
bot handles.  On these strings the float comparisons against 36.0 and 37.5
in the source are exact, so the tenths-valued model is faithful.  none
models a ValueError from float(). -/
def tempTenths (s : String) : Option Nat :=
  match splitOnceChars ['.'] s.data with
  | some (ip, [d]) =>
    match (match ip with | [] => none | _ => pyIntChars ip 0), digitVal d with
    | some i, some dv => some (i * 10 + dv)
    | _, _ => none
  | _ => none

/-! ### Data model -/

/-- Job kinds of the telegram job queue as used by the bot. -/
inductive JobKind
  | daily
  | once
  | repeating
deriving DecidableEq

/-- One scheduled job.  ctx models the job's context: the bot only ever
passes a 2-tuple (update, context) (modelled by the owning chat id) or no
context at all (run_once for extra reminders, the nightly reset job); a
list-typed context never occurs. -/
structure Job where
  name : String
  kind : JobKind
  ctx : Option Nat
deriving DecidableEq

/-- The per-chat user_data dict.  Absent keys are modelled by the falsy
defaults the code tests for ("" for current_state, [] for options, false
for the booleans, none for the reminder slots). -/
structure UserData where
  config_done : Bool := false
  current_state : String := ""
  options : List String := []
  group : String := ""
  name : String := ""
  reminder_am : Option String := none
  reminder_pm : Option String := none
  submitted_am : Bool := false
  submitted_pm : Bool := false
deriving DecidableEq

/-- A message sent to the user: reply text plus optional keyboard rows. -/
structure Msg where
  text : String
  keyboard : Option (List (List String)) := none
deriving DecidableEq

/-- Return value of a ConversationHandler callback: a next state, END, or
Python None (falling off the function without a return). -/
inductive HandlerResult
  | toState (s : String)
  | END
  | noneReturn
deriving DecidableEq

/-- Python exceptions relevant to the embedded code paths. -/
inductive PyErr
  | typeError
  | valueError
  | transport
deriving DecidableEq

/-- The external Google-Form client (out-of-scope collaborator): the
option-to-next-question mapping for the GROUP question and the namelist
lookup, as consumed by the bot. -/
structure GForm where
  options_dict : List (String × Nat)
  get_options : Nat → List String

def REMINDER_USER_LIMIT : Nat := 50

def STATE_SET_GROUP : String := "set_group"
def STATE_SET_NAME : String := "set_name"
def STATE_SET_REMINDER_AM : String := "set_reminder_am"
def STATE_SET_REMINDER_PM : String := "set_reminder_pm"
def STATE_SET_TEMPERATURE_AM : String := "set_temperature_am"
def STATE_SET_TEMPERATURE_PM : String := "set_temperature_pm"

def ERROR_MESSAGE_TO_USERS : String :=
  "An error has occurred. Please try again. The administrator will be notified of the issue."

/-- TEMPERATURES = [str(x / 10) for x in range(360, 400)]. -/
def TEMPERATURES : List String := (List.range 40).map (fun i => pyStrTenths (360 + i))

/-- am_reminder_options = [str(i).zfill(2) + ":00" for i in range(12)]. -/
def amReminderOptions : List String := (List.range 12).map (fun i => zfill2 i ++ ":00")

/-- pm_reminder_options = [str(i).zfill(2) + ":00" for i in range(12, 24)]. -/
def pmReminderOptions : List String := ((List.range 24).drop 12).map (fun i => zfill2 i ++ ":00")

/-- build_keyboard(items): one row per item. -/
def build_keyboard (items : List String) : Option (List (List String)) :=
  some (items.map (fun i => [i]))

/-- temperature_keyboard(): rows of two adjacent temperatures. -/
def temperature_keyboard : Option (List (List String)) :=
  some ((List.range 20).map (fun k => [pyStrTenths (360 + 2 * k), pyStrTenths (360 + 2 * k + 1)]))

def mkMsg (t : String) (kb : Option (List (List String))) : Msg := ⟨t, kb⟩

/-! ### Scheduler operations (tempbot.py) -/

/-- len(scheduler.get_jobs_by_name(n)). -/
def countJobsNamed (jobs : List Job) (n : String) : Nat :=
  (jobs.filter (fun j => j.name == n)).length

/-- The job names scanned by the slot-assignment code in set_reminder_pm:
filter(lambda x, REMINDER_JOB_NAME_REGEX.match(x) and x[:2] == time_requested[:2],
map(lambda x, x.name, scheduler.jobs())). -/
def activeSlotNames (jobs : List Job) (tr : String) : List String :=
  (jobs.map Job.name).filter (fun x => matchesSlotPattern x && strTake x 2 == strTake tr 2)

/-- The source wraps the filtered names in list(set(..)): a duplicate-free
list in an arbitrary, runtime-dependent order (Python string hashing is
randomized per process).  The embedding therefore takes the iteration order
as an input constrained by this predicate. -/
def IsSetOrder (slots : List String) (jobs : List Job) (tr : String) : Prop :=
  List.Perm slots (activeSlotNames jobs tr).dedup

instance (slots : List String) (jobs : List Job) (tr : String) :
    Decidable (IsSetOrder slots jobs tr) := by
  unfold IsSetOrder; infer_instance

/-- The for-loop over list_of_active_timeslots in set_reminder_pm.  Returns
none when Python raises (int(timeslot[3:]) on a name whose tail is not a
decimal string); otherwise (some chosen, next_inactive_minute): chosen is
the first timeslot whose subscriber count is below REMINDER_USER_LIMIT, and
next_inactive_minute tracks (int(timeslot[3:]) + 1) % 60 of the last full
timeslot examined (0 if none was). -/
def assignLoop (jobs : List Job) : List String → Nat → Option (Option String × Nat)
  | [], next => some (none, next)
  | t :: rest, next =>
    if countJobsNamed jobs t < REMINDER_USER_LIMIT then some (some t, next)
    else
      match pyInt (strDrop t 3) with
      | some m => assignLoop jobs rest ((m + 1) % 60)
      | none => none

/-- The complete slot-assignment block of set_reminder_pm (lines 516-533 for
AM, 548-565 for PM): either an active timeslot with room, or the fallback
time_requested[:2] + ":" + str(next_inactive_minute).zfill(2). -/
def assignSlot (jobs : List Job) (slots : List String) (tr : String) : Option String :=
  match assignLoop jobs slots 0 with
  | none => none
  | some (some t, _) => some t
  | some (none, next) => some (strTake tr 2 ++ ":" ++ zfill2 next)

/-- context.job_queue.run_daily(send_reminder, time=datetime.time(hour=
int(name[:2]), minute=int(name[3:]), ..), context=(update, context),
name=name): datetime.time raises ValueError unless the fragments parse with
hour < 24 and minute < 60; the created job carries the session tuple. -/
def mkDailyJob (nm : String) (chat : Nat) : Option Job :=
  if validSlotB nm then some ⟨nm, JobKind.daily, some chat⟩ else none

/-! ### Temperature submission (tempbot.py lines 162-295, gformhelper.py) -/

/-- One key-value pair of the submit_data dict. -/
structure FormEntry where
  key : String
  value : String
deriving DecidableEq

/-- submit_form (lines 241-270): builds the submit_data mapping from the
Question Registry (modelled as total mappings questions/pages; a missing
key would raise KeyError, which no claim exercises), applying the
out-of-range rule of lines 262-266.  none models the ValueError raised by
float(temperature) on a non-numeric string. -/
def submit_form_data (questions : String → Nat) (pages : String → String)
    (group uname : String) (temperature : String) (amOrPm : String)
    (y mo d : Nat) : Option (List FormEntry) :=
  let A := pyUpper amOrPm
  match tempTenths temperature with
  | none => none
  | some v =>
    let tempQ := toString (questions (A ++ " TEMP"))
    let base : List FormEntry :=
      [⟨"entry." ++ toString (questions "GROUP"), group⟩,
       ⟨"entry." ++ toString (questions group), uname⟩,
       ⟨"entry." ++ toString (questions "DATE") ++ ".year", toString y⟩,
       ⟨"entry." ++ toString (questions "DATE") ++ ".month", toString mo⟩,
       ⟨"entry." ++ toString (questions "DATE") ++ ".day", toString d⟩,
       ⟨"entry." ++ toString (questions "AM OR PM"), A⟩]
    let tempEntries : List FormEntry :=
      if v < 360 || v > 375 then
        [⟨"entry." ++ tempQ ++ ".other_option_response", temperature⟩,
         ⟨"entry." ++ tempQ, "__other_option__"⟩]
      else
        [⟨"entry." ++ tempQ, temperature⟩]
    let pageHistory : FormEntry :=
      ⟨"pageHistory",
       String.intercalate "," [pages "GROUP", pages group, pages "DATE", pages (A ++ " TEMP")]⟩
    some (base ++ tempEntries ++ [pageHistory])

/-- Whether the submit_data routes the temperature through the form's
other-option mechanism for question qid. -/
def hasOtherOption (es : List FormEntry) (qid : Nat) : Bool :=
  es.any (fun e => e.key == "entry." ++ toString qid ++ ".other_option_response")

/-- submit_form followed by gform.submit_form: the POST is modelled by the
function post (the external collaborator), returning the status code or a
raised transport exception.  gformhelper.submit_form has no try/except: a
requests exception propagates. -/
def submit_form_status (questions : String → Nat) (pages : String → String)
    (post : List FormEntry → Except PyErr Nat) (ud : UserData)
    (temperature : String) (amOrPm : String) (y mo d : Nat) : Except PyErr Nat :=
  match submit_form_data questions pages ud.group ud.name temperature amOrPm y mo d with
  | none => Except.error PyErr.valueError
  | some es => post es

/-- force_submit (lines 273-295).  The chat text elides the formatted
timestamp of the source message. -/
def force_submit (ud : UserData) (nowHour : Nat) : UserData × List Msg × HandlerResult :=
  if ud.config_done then
    let amOrPm := if nowHour < 12 then "am" else "pm"
    let st := if nowHour < 12 then STATE_SET_TEMPERATURE_AM else STATE_SET_TEMPERATURE_PM
    ({ud with current_state := st},
     [mkMsg ("It is now, you are eligible for " ++ pyUpper amOrPm ++
             " submission. Please enter your temperature:") temperature_keyboard],
     HandlerResult.toState st)
  else
    (ud,
     [mkMsg "Seems like you have not configured or something went wrong. Please enter /config or try again later" none],
     HandlerResult.END)

/-- set_temperature_am (lines 181-208).  The success and failure chat texts
elide the formatted date of the source messages.  A transport exception
raised inside gform.submit_form propagates out of the handler (there is no
try/except on the submission path). -/
def set_temperature_am (questions : String → Nat) (pages : String → String)
    (post : List FormEntry → Except PyErr Nat) (ud : UserData) (input : String)
    (y mo d nowHour : Nat) : Except PyErr (UserData × List Msg × HandlerResult) :=
  if TEMPERATURES.contains input then
    match submit_form_status questions pages post ud input "am" y mo d with
    | Except.error e => Except.error e
    | Except.ok status =>
      if status == 200 then
        Except.ok ({ud with submitted_am := true},
          [mkMsg ("AM " ++ input ++ " Submitted successfully") none], HandlerResult.END)
      else
        Except.ok (ud,
          [mkMsg "Error occurred while submitting. Please try again later." none],
          HandlerResult.END)
  else
    let r := force_submit ud nowHour
    Except.ok (r.1, mkMsg "Invalid temperature!" none :: r.2.1, r.2.2)

/-- set_temperature_pm (lines 211-238), symmetric to set_temperature_am. -/
def set_temperature_pm (questions : String → Nat) (pages : String → String)
    (post : List FormEntry → Except PyErr Nat) (ud : UserData) (input : String)
    (y mo d nowHour : Nat) : Except PyErr (UserData × List Msg × HandlerResult) :=
  if TEMPERATURES.contains input then
    match submit_form_status questions pages post ud input "pm" y mo d with
    | Except.error e => Except.error e
    | Except.ok status =>
      if status == 200 then
        Except.ok ({ud with submitted_pm := true},
          [mkMsg ("PM " ++ input ++ " Submitted successfully") none], HandlerResult.END)
      else
        Except.ok (ud,
          [mkMsg "Error occurred while submitting. Please try again later." none],
          HandlerResult.END)
  else
    let r := force_submit ud nowHour
    Except.ok (r.1, mkMsg "Invalid temperature!" none :: r.2.1, r.2.2)

/-- set_temperature (lines 162-178): the entry point reached by a free-text
message matching one of TEMPERATURES; dispatches on the stored
current_state and otherwise just ends the conversation. -/
def set_temperature (questions : String → Nat) (pages : String → String)
    (post : List FormEntry → Except PyErr Nat) (ud : UserData) (input : String)
    (y mo d nowHour : Nat) : Except PyErr (UserData × List Msg × HandlerResult) :=
  if ud.current_state != "" then
    if ud.current_state == STATE_SET_TEMPERATURE_AM then
      set_temperature_am questions pages post ud input y mo d nowHour
    else if ud.current_state == STATE_SET_TEMPERATURE_PM then
      set_temperature_pm questions pages post ud input y mo d nowHour
    else Except.ok (ud, [], HandlerResult.END)
  else Except.ok (ud, [], HandlerResult.END)

/-! ### Configuration dialog (tempbot.py lines 354-591) -/

/-- set_group (lines 399-426).  none models the KeyError raised by
options_dict[update.message.text] when a stale option is no longer a key of
the refreshed dict. -/
def set_group (g : GForm) (ud : UserData) (input : String) :
    Option (UserData × List Msg × HandlerResult) :=
  if ud.options.isEmpty then
    some (ud, [mkMsg ERROR_MESSAGE_TO_USERS none], HandlerResult.noneReturn)
  else if ud.options.contains input then
    match g.options_dict.lookup input with
    | none => none
    | some qid =>
      let name_options := g.get_options qid
      some ({ud with group := input, options := name_options},
            [mkMsg "Select your name" (build_keyboard name_options)],
            HandlerResult.toState STATE_SET_NAME)
  else
    some (ud, [mkMsg "Select your group:" (build_keyboard ud.options)],
          HandlerResult.toState STATE_SET_GROUP)

/-- set_name (lines 429-454). -/
def set_name (ud : UserData) (input : String) : UserData × List Msg × HandlerResult :=
  if ud.options.isEmpty then
    (ud, [mkMsg ERROR_MESSAGE_TO_USERS none], HandlerResult.noneReturn)
  else if ud.options.contains input then
    ({ud with name := input, options := amReminderOptions},
     [mkMsg "Set your daily AM temperature reminder:" (build_keyboard amReminderOptions)],
     HandlerResult.toState STATE_SET_REMINDER_AM)
  else
    (ud, [mkMsg "Select your name" (build_keyboard ud.options)],
     HandlerResult.toState STATE_SET_NAME)

/-- set_reminder_am (lines 457-483). -/
def set_reminder_am (ud : UserData) (input : String) : UserData × List Msg × HandlerResult :=
  if ud.options.isEmpty then
    (ud, [mkMsg ERROR_MESSAGE_TO_USERS none], HandlerResult.noneReturn)
  else if ud.options.contains input then
    ({ud with reminder_am := some input, options := pmReminderOptions},
     [mkMsg "Set your daily PM temperature reminder:" (build_keyboard pmReminderOptions)],
     HandlerResult.toState STATE_SET_REMINDER_PM)
  else
    (ud, [mkMsg "Set your daily AM temperature reminder:" (build_keyboard ud.options)],
     HandlerResult.toState STATE_SET_REMINDER_AM)

/-- The backlog check of lines 582-589: whether the freshly assigned
reminder time for the current half-day period has already passed. -/
def backlogDue (hAM mAM hPM mPM nowH nowM : Nat) : Bool :=
  if nowH < 12 then hAM < nowH || (hAM == nowH && mAM ≤ nowM)
  else hPM < nowH || (hPM == nowH && mPM ≤ nowM)

/-- set_reminder_pm (lines 486-591).  slotsAM and slotsPM are the iteration
orders of the two list(set(..)) slot scans (see IsSetOrder); the overall
none models any raised exception on the path: KeyError reading
user_data[USER_DATA_REMINDER_AM], ValueError from int() on a scanned name,
or ValueError from datetime.time on an out-of-range assigned slot. -/
def set_reminder_pm (ud : UserData) (input : String) (jobs : List Job) (chat : Nat)
    (slotsAM slotsPM : List String) (nowH nowM : Nat) :
    Option (UserData × List Job × List Msg × HandlerResult) :=
  if ud.options.isEmpty then
    some (ud, jobs, [mkMsg ERROR_MESSAGE_TO_USERS none], HandlerResult.noneReturn)
  else if !(ud.options.contains input) then
    some (ud, jobs,
          [mkMsg "Set your daily PM temperature reminder:" (build_keyboard ud.options)],
          HandlerResult.toState STATE_SET_REMINDER_PM)
  else
    let ud := {ud with reminder_pm := some input}
    match ud.reminder_am with
    | none => none
    | some time_requested =>
      match assignSlot jobs slotsAM time_requested with
      | none => none
      | some reminder_am =>
        let ud := {ud with reminder_am := some reminder_am}
        match mkDailyJob reminder_am chat with
        | none => none
        | some amJob =>
          let jobs := jobs ++ [amJob]
          match assignSlot jobs slotsPM input with
          | none => none
          | some reminder_pm =>
            let ud := {ud with reminder_pm := some reminder_pm}
            match mkDailyJob reminder_pm chat with
            | none => none
            | some pmJob =>
              let jobs := jobs ++ [pmJob]
              let ud := {ud with config_done := true}
              let doneMsgs := [mkMsg "Successfully finished setup!" none,
                mkMsg ("You will be sent a reminder at " ++ reminder_am ++ " and " ++
                       reminder_pm ++ " everyday. You may also use /force_submit to manually submit your temperature.") none]
              match parseTime reminder_am, parseTime reminder_pm with
              | some (hA, mA), some (hP, mP) =>
                if backlogDue hA mA hP mP nowH nowM then
                  let r := force_submit ud nowH
                  some (r.1, jobs, doneMsgs ++ r.2.1, r.2.2)
                else
                  some (ud, jobs, doneMsgs, HandlerResult.END)
              | _, _ => none

/-- The valid-reply configuration path SET_GROUP, SET_NAME, SET_REMINDER_AM,
SET_REMINDER_PM: each handler consumes one reply and the ConversationHandler
routes to the state it returns. -/
def runConfigDialog (g : GForm) (chat : Nat) (ud0 : UserData) (jobs0 : List Job)
    (i1 i2 i3 i4 : String) (slotsAM slotsPM : List String) (nowH nowM : Nat) :
    Option (UserData × List Job × List Msg × HandlerResult) :=
  match set_group g ud0 i1 with
  | none => none
  | some (ud1, _, _) =>
    let r2 := set_name ud1 i2
    let r3 := set_reminder_am r2.1 i3
    set_reminder_pm r3.1 i4 jobs0 chat slotsAM slotsPM nowH nowM

/-- The prompt each configuration state emits. -/
def promptFor (st : String) : String :=
  if st == STATE_SET_GROUP then "Select your group:"
  else if st == STATE_SET_NAME then "Select your name"
  else if st == STATE_SET_REMINDER_AM then "Set your daily AM temperature reminder:"
  else "Set your daily PM temperature reminder:"

/-- One step of the configuration dialog: the MessageHandler of the current
state, as wired in main (lines 656-663).  Handlers other than
set_reminder_pm do not touch the job queue. -/
def configStep (g : GForm) (st : String) (ud : UserData) (input : String)
    (jobs : List Job) (chat : Nat) (slotsAM slotsPM : List String) (nowH nowM : Nat) :
    Option (UserData × List Job × List Msg × HandlerResult) :=
  if st == STATE_SET_GROUP then
    (set_group g ud input).map (fun r => (r.1, jobs, r.2.1, r.2.2))
  else if st == STATE_SET_NAME then
    let r := set_name ud input
    some (r.1, jobs, r.2.1, r.2.2)
  else if st == STATE_SET_REMINDER_AM then
    let r := set_reminder_am ud input
    some (r.1, jobs, r.2.1, r.2.2)
  else if st == STATE_SET_REMINDER_PM then
    set_reminder_pm ud input jobs chat slotsAM slotsPM nowH nowM
  else none

/-! ### Stop and reconfiguration (tempbot.py lines 313-396) -/

/-- remove_reminders_from_jobqueue (lines 337-347): removes every job whose
context is a 2-tuple carrying the given chat id. -/
def remove_reminders_from_jobqueue (chat : Nat) (jobs : List Job) : List Job :=
  jobs.filter (fun j => !(j.ctx == some chat))

/-- stop (lines 313-334): clears the user_data dict and removes the jobs
owned by the chat. -/
def stop (ud : UserData) (chat : Nat) (jobs : List Job) :
    UserData × List Job × HandlerResult :=
  ({}, remove_reminders_from_jobqueue chat jobs, HandlerResult.END)

/-- config (lines 354-396).  The second removal loop of lines 380-385 tests
isinstance(job.context, list); job contexts are tuples or None, never
lists, so that loop removes nothing.  The questions-registry refresh of
lines 387-391 touches no per-session or job state and is elided. -/
def config (g : GForm) (ud : UserData) (chat : Nat) (jobs : List Job) :
    UserData × List Job × List Msg × HandlerResult :=
  let jobs := if ud.config_done then remove_reminders_from_jobqueue chat jobs else jobs
  let ud := {ud with current_state := "", config_done := false,
                     submitted_am := false, submitted_pm := false,
                     reminder_am := none, reminder_pm := none}
  let group_options := g.options_dict.map Prod.fst
  ({ud with options := group_options}, jobs,
   [mkMsg "Select your group:" (build_keyboard group_options)],
   HandlerResult.toState STATE_SET_GROUP)

/-- The job list remaining after /stop followed by /config for one chat. -/
def afterStopConfigJobs (g : GForm) (ud : UserData) (chat : Nat) (jobs : List Job) :
    List Job :=
  (config g (stop ud chat jobs).1 chat (stop ud chat jobs).2.1).2.1

/-! ### Reminders and nightly reset (tempbot.py lines 68-157) -/

/-- Observable effect of one send_reminder firing. -/
structure ReminderOutcome where
  sessionUpdate : Option (Nat × UserData) := none
  scheduled : List Job := []
  removedSelf : Bool := false
  msgs : List Msg := []
deriving DecidableEq

/-- send_reminder (lines 115-157), firing for job j with the per-chat
session store sessions and current hour nowH.  The extra reminder of line
155 is created by scheduler.run_once(send_reminder, when=3600, name=..)
with no context argument, so the scheduled job carries ctx = none. -/
def send_reminder (j : Job) (sessions : Nat → UserData) (nowH : Nat) :
    Option ReminderOutcome :=
  if !(matchesSlotPattern j.name) then some {}
  else
    match j.ctx with
    | none => some {}
    | some chat =>
      let ud := sessions chat
      let reminder_time := j.name
      match pyInt (strTake reminder_time 2) with
      | none => none
      | some h =>
        let amOrPm := if h < 12 then "am" else "pm"
        let step : Option (String × String × Bool) :=
          if strContains reminder_time "-extra_reminder-" then
            match splitOnceChars "-extra_reminder-".data reminder_time.data with
            | some (a, b) =>
              let rt : String := ⟨a⟩
              let nxt : String := ⟨b⟩
              match pyInt (strTake nxt 2) with
              | none => none
              | some h2 => some (rt, zfill2 (h2 + 1) ++ strDrop nxt 2, true)
            | none => none
          else
            some (reminder_time, zfill2 (h + 1) ++ strDrop reminder_time 2, false)
        match step with
        | none => none
        | some (rt, nxt, isExtra) =>
          let submitted := if amOrPm == "am" then ud.submitted_am else ud.submitted_pm
          if !submitted then
            match pyInt (strTake nxt 2) with
            | none => none
            | some nh =>
              if (amOrPm == "am" && nh < 12) || (amOrPm == "pm" && nh < 24) then
                let fs := force_submit ud nowH
                some { sessionUpdate := some (chat, fs.1),
                       scheduled := [⟨rt ++ "-extra_reminder-" ++ nxt, JobKind.once, none⟩],
                       removedSelf := isExtra,
                       msgs := fs.2.1 }
              else
                some { removedSelf := isExtra }
          else
            some { removedSelf := isExtra }

/-- The job-scanning loop of daily_night_reset (lines 88-107): collects
extra-reminder jobs for removal; for any other job carrying a 2-tuple
context, line 94 unpacks context.job.context - the running nightly job's
own context, which main registers without one (None) - so the unpacking
raises TypeError (and even with a tuple there, the item assignments of
lines 98-99 on a CallbackContext would raise TypeError). -/
def nightLoop : List Job → List Job → Except PyErr (List Job)
  | [], toRemove => Except.ok toRemove
  | j :: rest, toRemove =>
    if strContains j.name "extra_reminder" then nightLoop rest (toRemove ++ [j])
    else
      match j.ctx with
      | some _ => Except.error PyErr.typeError
      | none => nightLoop rest toRemove

/-- daily_night_reset (lines 68-112): refresh holds the outcome of
gform.update_list() and the namelist scrape (an error propagates out of the
handler, unguarded); then the job scan, then the removals.  The sessions
store is returned unchanged: the code never reaches a successful
submission-flag reset. -/
def daily_night_reset (refresh : Except PyErr Unit) (jobs : List Job)
    (sessions : List (Nat × UserData)) :
    Except PyErr (List Job × List (Nat × UserData)) :=
  match refresh with
  | Except.error e => Except.error e
  | Except.ok _ =>
    match nightLoop jobs [] with
    | Except.error e => Except.error e
    | Except.ok toRemove =>
      Except.ok (jobs.filter (fun j => !(toRemove.contains j)), sessions)

/-- Number of jobs owned by a chat (context tuple carrying its id). -/
def countOwned (jobs : List Job) (chat : Nat) : Nat :=
  (jobs.filter (fun j => j.ctx == some chat)).length

/-- Job-list projection of a set_reminder_pm result. -/
def resultJobs (r : Option (UserData × List Job × List Msg × HandlerResult)) : List Job :=
  (r.map (fun x => x.2.1)).getD []

end TempBot

deriving instance DecidableEq for Except

namespace TempBot

/-! ### Concrete fixtures used by witnesses and counterexamples -/

/-- 100 jobs: two bare slots of hour 12, both at the REMINDER_USER_LIMIT.
Such a state is reachable: 100 sessions requesting "12:00" fill "12:00" and
then (via the wraparound fallback) "12:01". -/
def c1Jobs : List Job :=
  List.replicate 50 ⟨"12:00", JobKind.daily, some 1⟩ ++
  List.replicate 50 ⟨"12:01", JobKind.daily, some 2⟩

/-- A 101st session at the SET_REMINDER_PM state, AM slot already chosen. -/
def c1Ud : UserData := { options := pmReminderOptions, reminder_am := some "08:00" }

/-- A queue holding one live extra-reminder job of hour 09, exactly as
send_reminder schedules it (run_once with no context).  Its compound name
passes the slot scan's filter - the regex matches at the start and the
first two characters equal the requested hour. -/
def c5Jobs : List Job := [⟨"09:00-extra_reminder-10:00", JobKind.once, none⟩]

/-- Two bare slots of hour 9, minutes 5 and 3, both at the limit. -/
def c2Jobs : List Job :=
  List.replicate 50 ⟨"09:05", JobKind.daily, some 1⟩ ++
  List.replicate 50 ⟨"09:03", JobKind.daily, some 2⟩

/-- A sample Question Registry (logical field name to numeric form id). -/
def sampleQuestions : String → Nat := fun k =>
  if k == "GROUP" then 1
  else if k == "DATE" then 2
  else if k == "AM OR PM" then 3
  else if k == "AM TEMP" then 4
  else if k == "PM TEMP" then 5
  else if k == "GroupA" then 6
  else 0

/-- A sample page-index mapping. -/
def samplePages : String → String := fun k =>
  if k == "GROUP" then "0"
  else if k == "GroupA" then "1"
  else if k == "DATE" then "2"
  else "3"

/-- Routing decision of submit_form for a temperature under the sample
registry: whether the built submit_data carries the other-option key for
the AM temperature question. -/
def routesViaOther (t : String) : Option Bool :=
  (submit_form_data sampleQuestions samplePages "GroupA" "Alice" t "am" 2026 10 12).map
    (fun es => hasOtherOption es (sampleQuestions "AM TEMP"))

/-- A session store where every session is configured and unsubmitted. -/
def sampleSessions : Nat → UserData := fun _ => { config_done := true }

/-- A POST stub reporting HTTP 200. -/
def samplePostOk : List FormEntry → Except PyErr Nat := fun _ => Except.ok 200

/-- A POST stub raising a transport exception (requests failure). -/
def samplePostErr : List FormEntry → Except PyErr Nat := fun _ => Except.error PyErr.transport

/-- A configured session currently prompted for an AM temperature. -/
def sampleUdAM : UserData :=
  { config_done := true, current_state := STATE_SET_TEMPERATURE_AM,
    group := "GroupA", name := "Alice" }

/-- A configured session that is idle: no dialog state is stored (config
sets current_state to "" and nothing on the completed-setup path without a
backlog prompt ever sets a temperature state). -/
def sampleUdIdle : UserData := { config_done := true, group := "GroupA", name := "Alice" }

/-- A sample external form client with one group and one member. -/
def sampleGForm : GForm :=
  { options_dict := [("GroupA", 7)],
    get_options := fun n => if n == 7 then ["Alice"] else [] }

/-- A session that has just been asked to select its group. -/
def sampleUdStart : UserData := { options := ["GroupA"] }

/-! ### Supporting lemmas -/

/-- A slot chosen by the occupancy scan had strictly fewer than
REMINDER_USER_LIMIT jobs at the moment of assignment. -/
theorem assignLoop_chosen_below_limit (jobs : List Job) :
    ∀ (slots : List String) (next : Nat) (s : String) (r : Nat),
      assignLoop jobs slots next = some (some s, r) →
      countJobsNamed jobs s < REMINDER_USER_LIMIT := by
  intro slots
  induction slots with
  | nil => intro next s r h; simp [assignLoop] at h
  | cons t rest ih =>
    intro next s r h
    by_cases hc : countJobsNamed jobs t < REMINDER_USER_LIMIT
    · rw [assignLoop, if_pos hc] at h
      have hts : t = s := Option.some.inj (congrArg Prod.fst (Option.some.inj h))
      subst hts
      exact hc
    · rw [assignLoop, if_neg hc] at h
      cases hp : pyInt (strDrop t 3) with
      | none => rw [hp] at h; cases h
      | some m => rw [hp] at h; exact ih _ s r h

/-- When every scanned timeslot is at the limit, the loop falls through and
next_inactive_minute is (minute of the last examined timeslot + 1) mod 60. -/
theorem assignLoop_all_full (jobs : List Job) :
    ∀ (slots : List String) (next : Nat) (lastS : String) (m : Nat),
      (∀ x ∈ slots, ¬ countJobsNamed jobs x < REMINDER_USER_LIMIT) →
      (∀ x ∈ slots, (pyInt (strDrop x 3)).isSome) →
      slots.getLast? = some lastS →
      pyInt (strDrop lastS 3) = some m →
      assignLoop jobs slots next = some (none, (m + 1) % 60) := by
  intro slots
  induction slots with
  | nil => intro next lastS m _ _ hlast _; simp at hlast
  | cons t rest ih =>
    intro next lastS m hfull hparse hlast hm
    have hft : ¬ countJobsNamed jobs t < REMINDER_USER_LIMIT := hfull t (by simp)
    have hpt : (pyInt (strDrop t 3)).isSome := hparse t (by simp)
    rw [assignLoop, if_neg hft]
    cases hp : pyInt (strDrop t 3) with
    | none => rw [hp] at hpt; simp at hpt
    | some mt =>
      cases rest with
      | nil =>
        have : t = lastS := by simpa using hlast
        subst this
        rw [hp] at hm
        cases hm
        simp [assignLoop]
      | cons u us =>
        have hlast' : (u :: us).getLast? = some lastS := by
          simpa [List.getLast?] using hlast
        exact ih _ lastS m (fun x hx => hfull x (by simp [hx]))
          (fun x hx => hparse x (by simp [hx])) hlast' hm

/-! ### Claim C1 -/

set_option maxRecDepth 40000 in
/-- Claim C1 (counterexample): starting from a reachable queue in which
every bare slot carries at most REMINDER_USER_LIMIT jobs ("12:00" and
"12:01" both exactly at the limit), one further reminder request for
"12:00" - with a legitimate set iteration order that examines "12:01" first
and "12:00" last - makes the wraparound fallback create a 51st job named
"12:01".  The bare time-slot occupancy bound is therefore not an invariant
of the code. -/
theorem slot_limit_counterexample :
    (c1Jobs.map Job.name).all
        (fun n => decide (countJobsNamed c1Jobs n ≤ REMINDER_USER_LIMIT)) = true ∧
    IsSetOrder [] c1Jobs "08:00" ∧
    IsSetOrder ["12:01", "12:00"] (c1Jobs ++ [⟨"08:00", JobKind.daily, some 101⟩]) "12:00" ∧
    countJobsNamed
        (resultJobs (set_reminder_pm c1Ud "12:00" c1Jobs 101 [] ["12:01", "12:00"] 12 0))
        "12:01" = REMINDER_USER_LIMIT + 1 := by
  refine ⟨by decide, by decide, by decide, by decide⟩

/-- Claim C1 (amended): the occupancy bound does hold for every assignment
made through the active-slot scan - a timeslot chosen by the scan has
strictly fewer than REMINDER_USER_LIMIT subscribed jobs at that moment, so
adding the session keeps it within the limit.  Only the wraparound fallback
of lines 531-533/563-565 can push a bare slot past the limit. -/
theorem scan_assignment_respects_limit (jobs : List Job) (slots : List String)
    (next : Nat) (s : String) (r : Nat) (chat : Nat) (k : JobKind)
    (h : assignLoop jobs slots next = some (some s, r)) :
    countJobsNamed (jobs ++ [⟨s, k, some chat⟩]) s ≤ REMINDER_USER_LIMIT := by
  have hlt : countJobsNamed jobs s < REMINDER_USER_LIMIT :=
    assignLoop_chosen_below_limit jobs slots next s r h
  have hone : countJobsNamed [(⟨s, k, some chat⟩ : Job)] s = 1 := by
    simp [countJobsNamed]
  unfold countJobsNamed at *
  rw [List.filter_append, List.length_append]
  omega

/-- Concrete instance of scan_assignment_respects_limit: one session already
uses "12:00"; the scan assigns a second one there and the slot stays within
the limit. -/
theorem scan_assignment_respects_limit_witness :
    countJobsNamed
        ([⟨"12:00", JobKind.daily, some 1⟩] ++ [⟨"12:00", JobKind.daily, some 2⟩])
        "12:00" ≤ REMINDER_USER_LIMIT :=
  scan_assignment_respects_limit [⟨"12:00", JobKind.daily, some 1⟩] ["12:00"] 0
    "12:00" 0 2 JobKind.daily (by decide)

/-! ### Claim C2 -/

set_option maxRecDepth 40000 in
/-- Claim C2 (counterexample): both active slots of hour 09 ("09:05" and
"09:03") are at the limit; with the legitimate set iteration order
examining "09:05" first and "09:03" last, the session is assigned "09:04" -
minute of the last examined slot plus one - whereas the highest occupied
minute seen is 5, so the claim predicts "09:06". -/
theorem full_hour_assignment_counterexample :
    IsSetOrder ["09:05", "09:03"] c2Jobs "09:00" ∧
    countJobsNamed c2Jobs "09:05" = REMINDER_USER_LIMIT ∧
    countJobsNamed c2Jobs "09:03" = REMINDER_USER_LIMIT ∧
    ((activeSlotNames c2Jobs "09:00").map
        (fun s => (pyInt (strDrop s 3)).getD 0)).foldr Nat.max 0 = 5 ∧
    assignSlot c2Jobs ["09:05", "09:03"] "09:00" = some "09:04" ∧
    "09:04" ≠ strTake "09:00" 2 ++ ":" ++ zfill2 ((5 + 1) % 60) := by
  refine ⟨by decide, by decide, by decide, by decide, by decide, by decide⟩

/-- Claim C2 (amended): when every scanned slot of the requested hour is at
the REMINDER_USER_LIMIT, the session is assigned
HH:((minute of the last slot examined in iteration order + 1) mod 60) -
the last examined slot, not the highest occupied minute seen (the set
iteration order is arbitrary) - and set_reminder_pm then creates a new
daily job under that name. -/
theorem full_hour_assigns_after_last_examined (jobs : List Job)
    (slots : List String) (tr lastS : String) (m : Nat)
    (hfull : ∀ x ∈ slots, ¬ countJobsNamed jobs x < REMINDER_USER_LIMIT)
    (hparse : ∀ x ∈ slots, (pyInt (strDrop x 3)).isSome)
    (hlast : slots.getLast? = some lastS)
    (hm : pyInt (strDrop lastS 3) = some m) :
    assignSlot jobs slots tr = some (strTake tr 2 ++ ":" ++ zfill2 ((m + 1) % 60)) := by
  unfold assignSlot
  rw [assignLoop_all_full jobs slots 0 lastS m hfull hparse hlast hm]

set_option maxRecDepth 40000 in
/-- Concrete instance of full_hour_assigns_after_last_examined: a single
full slot "09:03"; the request for "09:00" is assigned "09:04". -/
theorem full_hour_assigns_after_last_examined_witness :
    assignSlot (List.replicate 50 ⟨"09:03", JobKind.daily, some 1⟩) ["09:03"] "09:00" =
      some (strTake "09:00" 2 ++ ":" ++ zfill2 ((3 + 1) % 60)) :=
  full_hour_assigns_after_last_examined
    (List.replicate 50 ⟨"09:03", JobKind.daily, some 1⟩) ["09:03"] "09:00" "09:03" 3
    (by decide) (by decide) (by decide) (by decide)

/-! ### Claim C3 -/

/-- Claim C3: the nightly reset never clears the submission flags.  (1) With
a successful refresh and a queue holding one ordinary reminder job (tuple
context), the scan raises TypeError - line 94 unpacks context.job.context,
the nightly job's own context, which is None - and the handler aborts with
the session flags still true.  (2) With a failing refresh, the unguarded
gform.update_list() propagates the error before any reset.  (3) Even on the
one path that completes (no tuple-context job to scan), the sessions are
returned with their flags untouched.  The claim that both flags are always
cleared regardless of refresh outcome fails on the code. -/
theorem night_reset_never_clears_flags :
    daily_night_reset (Except.ok ()) [⟨"08:00", JobKind.daily, some 1⟩]
        [(1, { submitted_am := true, submitted_pm := true })] =
      Except.error PyErr.typeError ∧
    daily_night_reset (Except.error PyErr.transport) [⟨"08:00", JobKind.daily, some 1⟩]
        [(1, { submitted_am := true, submitted_pm := true })] =
      Except.error PyErr.transport ∧
    daily_night_reset (Except.ok ())
        [⟨"09:00-extra_reminder-10:00", JobKind.once, none⟩]
        [(1, { submitted_am := true, submitted_pm := true })] =
      Except.ok ([], [(1, { submitted_am := true, submitted_pm := true })]) := by
  refine ⟨by decide, by decide, by decide⟩

/-! ### Claim C4 -/

/-- Claim C4: for every legal discretized temperature string, submit_form
routes the value through the other-option encoding exactly when its numeric
value (in tenths) is strictly below 36.0 or strictly above 37.5; "35.0"
routes via the other option, while "36.8" and the boundary values "36.0"
and "37.5" use the normal field slot. -/
theorem out_of_range_routing :
    (TEMPERATURES.all (fun t =>
      routesViaOther t ==
        some (decide ((tempTenths t).getD 0 < 360) ||
              decide ((tempTenths t).getD 0 > 375)))) = true ∧
    routesViaOther "35.0" = some true ∧
    routesViaOther "36.8" = some false ∧
    routesViaOther "36.0" = some false ∧
    routesViaOther "37.5" = some false := by
  refine ⟨by decide, by decide, by decide, by decide, by decide⟩

/-! ### Claim C6 -/

/-- Claim C6: the extra-reminder chain is broken.  (1) A firing bare
reminder for an unsubmitted session does schedule a one-shot extra reminder
tagged with origin and next-hour times - but run_once is called without a
context, so the scheduled job carries none.  (2) When that extra reminder
fires, send_reminder returns at the context check before removing the job,
scheduling the next link or prompting: the outcome is empty - no self-chain,
no self-removal, contradicting the function's own docstring ("Extra
reminders are sent on an hourly basis until the next submission window or
the user responds").  (3) At the window boundary (origin 11:00, next hour
12) no extra reminder is scheduled, as the claim states. -/
theorem extra_reminder_firing_inert :
    send_reminder ⟨"09:00", JobKind.daily, some 7⟩ sampleSessions 9 =
      some { sessionUpdate := some (7, { config_done := true,
                                         current_state := STATE_SET_TEMPERATURE_AM }),
             scheduled := [⟨"09:00-extra_reminder-10:00", JobKind.once, none⟩],
             removedSelf := false,
             msgs := (force_submit { config_done := true } 9).2.1 } ∧
    send_reminder ⟨"09:00-extra_reminder-10:00", JobKind.once, none⟩ sampleSessions 10 =
      some {} ∧
    send_reminder ⟨"11:00", JobKind.daily, some 7⟩ sampleSessions 11 =
      some { removedSelf := false } := by
  refine ⟨by decide, by decide, by decide⟩

/-! ### Claim C7 -/

/-- Claim C7 (counterexample): a transport error raised by the POST inside
gform.submit_form propagates uncaught out of set_temperature_am - there is
no try/except anywhere on the submission path - instead of being converted
into a user-facing Failure outcome as the claim requires. -/
theorem transport_error_propagates_counterexample :
    set_temperature_am sampleQuestions samplePages samplePostErr sampleUdAM
        "36.5" 2026 10 12 9 = Except.error PyErr.transport := by
  decide

/-! ### Claim C10 -/

/-- Claim C10 (counterexample): an idle, fully configured session with no
stored dialog state (current_state is "", as /config leaves it) sends
"36.5" - a legal discretized temperature accepted by the entry-point
filter - yet set_temperature ends the conversation without routing into
temperature submission: no handler runs, no message is sent, the session is
unchanged. -/
theorem idle_temperature_not_routed_counterexample :
    TEMPERATURES.contains "36.5" = true ∧
    set_temperature sampleQuestions samplePages samplePostOk sampleUdIdle
        "36.5" 2026 10 12 9 =
      Except.ok (sampleUdIdle, [], HandlerResult.END) ∧
    sampleUdIdle.submitted_am = false := by
  refine ⟨by decide, by decide, by decide⟩

/-- Every legal discretized temperature string parses to a tenths value
(so float() cannot raise on the validated path). -/
theorem temps_parse : ∀ t ∈ TEMPERATURES, (tempTenths t).isSome = true := by decide

/-- Claim C7 (amended): with the POST reporting a status code, the handler
returns Success (flag set, confirmation message) exactly when the status is
200 and otherwise reports a Failure message to the user without retrying;
but a transport-level exception propagates out of the submission path
instead of being converted into a user-facing Failure. -/
theorem submission_outcome_classification (q : String → Nat) (p : String → String)
    (ud : UserData) (input : String) (y mo d nowH status : Nat) (e : PyErr)
    (hin : input ∈ TEMPERATURES) :
    (set_temperature_am q p (fun _ => Except.ok status) ud input y mo d nowH =
      if status == 200 then
        Except.ok ({ud with submitted_am := true},
          [mkMsg ("AM " ++ input ++ " Submitted successfully") none], HandlerResult.END)
      else
        Except.ok (ud,
          [mkMsg "Error occurred while submitting. Please try again later." none],
          HandlerResult.END)) ∧
    set_temperature_am q p (fun _ => Except.error e) ud input y mo d nowH =
      Except.error e := by
  have hc : TEMPERATURES.contains input = true := by
    simpa [List.elem_iff] using hin
  have hsome : (tempTenths input).isSome = true := temps_parse input hin
  obtain ⟨v, hv⟩ : ∃ v, tempTenths input = some v := by
    cases h : tempTenths input with
    | none => rw [h] at hsome; simp at hsome
    | some v => exact ⟨v, rfl⟩
  constructor
  · simp only [set_temperature_am, hc, if_true, submit_form_status, submit_form_data, hv]
  · simp only [set_temperature_am, hc, if_true, submit_form_status, submit_form_data, hv]

/-- Concrete instance of submission_outcome_classification at status 404
and a transport exception. -/
theorem submission_outcome_classification_witness :
    (set_temperature_am sampleQuestions samplePages (fun _ => Except.ok 404) sampleUdAM
        "36.5" 2026 10 12 9 =
      if (404 : Nat) == 200 then
        Except.ok ({sampleUdAM with submitted_am := true},
          [mkMsg ("AM " ++ "36.5" ++ " Submitted successfully") none], HandlerResult.END)
      else
        Except.ok (sampleUdAM,
          [mkMsg "Error occurred while submitting. Please try again later." none],
          HandlerResult.END)) ∧
    set_temperature_am sampleQuestions samplePages (fun _ => Except.error PyErr.transport)
        sampleUdAM "36.5" 2026 10 12 9 = Except.error PyErr.transport :=
  submission_outcome_classification sampleQuestions samplePages sampleUdAM
    "36.5" 2026 10 12 9 404 PyErr.transport (by decide)

/-- Claim C10 (amended): a free-text temperature message reaching the
set_temperature entry point is routed into temperature submission if and
only if the session's stored current_state is SET_TEMPERATURE_AM or
SET_TEMPERATURE_PM (a state only force_submit installs); for every other
stored state - including the empty state an idle freshly configured session
holds - the handler ends the conversation without submitting. -/
theorem temperature_entry_routing (q : String → Nat) (p : String → String)
    (post : List FormEntry → Except PyErr Nat) (ud : UserData) (input : String)
    (y mo d nowH : Nat) :
    (ud.current_state = STATE_SET_TEMPERATURE_AM →
      set_temperature q p post ud input y mo d nowH =
        set_temperature_am q p post ud input y mo d nowH) ∧
    (ud.current_state = STATE_SET_TEMPERATURE_PM →
      set_temperature q p post ud input y mo d nowH =
        set_temperature_pm q p post ud input y mo d nowH) ∧
    (ud.current_state ≠ STATE_SET_TEMPERATURE_AM →
      ud.current_state ≠ STATE_SET_TEMPERATURE_PM →
      set_temperature q p post ud input y mo d nowH =
        Except.ok (ud, [], HandlerResult.END)) := by
  refine ⟨fun h => ?_, fun h => ?_, fun h1 h2 => ?_⟩
  · simp [set_temperature, h, STATE_SET_TEMPERATURE_AM]
  · simp [set_temperature, h, STATE_SET_TEMPERATURE_PM, STATE_SET_TEMPERATURE_AM]
  · by_cases h0 : ud.current_state = ""
    · simp [set_temperature, h0]
    · simp [set_temperature, h0, h1, h2]

/-- Concrete instance of temperature_entry_routing for a session holding
the SET_TEMPERATURE_AM state. -/
theorem temperature_entry_routing_witness :
    set_temperature sampleQuestions samplePages samplePostOk sampleUdAM
        "36.5" 2026 10 12 9 =
      set_temperature_am sampleQuestions samplePages samplePostOk sampleUdAM
        "36.5" 2026 10 12 9 :=
  (temperature_entry_routing sampleQuestions samplePages samplePostOk sampleUdAM
    "36.5" 2026 10 12 9).1 rfl

/-! ### Claim C8 -/

/-- Claim C8: after /stop followed by /config, no job owned by the session
(context tuple carrying its chat id) remains in the queue; and /stop
removes a job exactly when its context carries the stopping session's chat
id - jobs of other sessions, including those sharing the same slot name,
are untouched. -/
theorem stop_then_config_cancels_exactly_own (g : GForm) (ud : UserData)
    (chat : Nat) (jobs : List Job) :
    (∀ j ∈ afterStopConfigJobs g ud chat jobs, ¬ j.ctx = some chat) ∧
    (∀ j ∈ jobs, (j ∈ (stop ud chat jobs).2.1 ↔ ¬ j.ctx = some chat)) := by
  constructor
  · intro j hj
    have heq : afterStopConfigJobs g ud chat jobs =
        remove_reminders_from_jobqueue chat jobs := by
      simp [afterStopConfigJobs, config, stop]
    rw [heq, remove_reminders_from_jobqueue, List.mem_filter] at hj
    simpa using hj.2
  · intro j hj
    simp [stop, remove_reminders_from_jobqueue, List.mem_filter, hj]

/-- Concrete instance of stop_then_config_cancels_exactly_own: chats 1 and
2 share the slot name "08:00"; chat 1 stops and reconfigures. -/
theorem stop_then_config_cancels_exactly_own_witness :
    (∀ j ∈ afterStopConfigJobs sampleGForm { config_done := true } 1
        [⟨"08:00", JobKind.daily, some 1⟩, ⟨"08:00", JobKind.daily, some 2⟩],
      ¬ j.ctx = some 1) ∧
    (∀ j ∈ [⟨"08:00", JobKind.daily, some 1⟩, (⟨"08:00", JobKind.daily, some 2⟩ : Job)],
      (j ∈ (stop { config_done := true } 1
            [⟨"08:00", JobKind.daily, some 1⟩, ⟨"08:00", JobKind.daily, some 2⟩]).2.1 ↔
        ¬ j.ctx = some 1)) :=
  stop_then_config_cancels_exactly_own sampleGForm { config_done := true } 1
    [⟨"08:00", JobKind.daily, some 1⟩, ⟨"08:00", JobKind.daily, some 2⟩]

/-! ### Claim C9 -/

/-- Claim C9: in each configuration-dialog state, a reply outside the
pending option set leaves the session data and job queue unchanged,
re-emits the state's prompt with the same option set as keyboard, and
returns the same state (self-loop); no error escapes the transition. -/
theorem invalid_reply_self_loops (g : GForm) (st : String) (ud : UserData)
    (input : String) (jobs : List Job) (chat : Nat) (slotsAM slotsPM : List String)
    (nowH nowM : Nat)
    (hst : st = STATE_SET_GROUP ∨ st = STATE_SET_NAME ∨
           st = STATE_SET_REMINDER_AM ∨ st = STATE_SET_REMINDER_PM)
    (hne : ud.options.isEmpty = false)
    (hnin : ud.options.contains input = false) :
    configStep g st ud input jobs chat slotsAM slotsPM nowH nowM =
      some (ud, jobs, [mkMsg (promptFor st) (build_keyboard ud.options)],
            HandlerResult.toState st) := by
  have hmem : input ∉ ud.options := by simpa using hnin
  rcases hst with h | h | h | h <;> subst h <;>
    simp [configStep, promptFor, set_group, set_name, set_reminder_am, set_reminder_pm,
          STATE_SET_GROUP, STATE_SET_NAME, STATE_SET_REMINDER_AM, STATE_SET_REMINDER_PM,
          hne, hnin, hmem]

/-- Concrete instance of invalid_reply_self_loops: an unknown group name at
the SET_GROUP state re-prompts with the same options. -/
theorem invalid_reply_self_loops_witness :
    configStep sampleGForm STATE_SET_GROUP sampleUdStart "NoSuchGroup" [] 1 [] [] 9 0 =
      some (sampleUdStart, [],
            [mkMsg (promptFor STATE_SET_GROUP) (build_keyboard sampleUdStart.options)],
            HandlerResult.toState STATE_SET_GROUP) :=
  invalid_reply_self_loops sampleGForm STATE_SET_GROUP sampleUdStart "NoSuchGroup"
    [] 1 [] [] 9 0 (Or.inl rfl) (by decide) (by decide)

/-! ### Claim C5: supporting lemmas -/

/-- A name accepted by the datetime.time validation parses to an in-range
hour and minute. -/
theorem validSlotB_spec (s : String) (h : validSlotB s = true) :
    ∃ hm : Nat × Nat, parseTime s = some hm ∧ hm.1 < 24 ∧ hm.2 < 60 := by
  unfold validSlotB at h
  cases hp : parseTime s with
  | none => rw [hp] at h; cases h
  | some hm =>
    obtain ⟨h1, m1⟩ := hm
    rw [hp] at h
    simp only [Bool.and_eq_true, decide_eq_true_eq] at h
    exact ⟨(h1, m1), rfl, h.1, h.2⟩

/-- The minute fragment of a parsed name. -/
theorem parseTime_minute (s : String) (h m : Nat) (hp : parseTime s = some (h, m)) :
    pyInt (strDrop s 3) = some m := by
  unfold parseTime at hp
  cases h1 : pyInt (strTake s 2) <;> cases h2 : pyInt (strDrop s 3) <;>
    rw [h1, h2] at hp <;> cases hp <;> rfl

/-- The slot-assignment loop never raises and lands either on a scanned
valid slot or on a fallback minute below 60, provided every scanned slot is
valid. -/
theorem assignLoop_ok (jobs : List Job) :
    ∀ (slots : List String) (next : Nat),
      (∀ s ∈ slots, validSlotB s = true) → next < 60 →
      ∃ r, assignLoop jobs slots next = some r ∧
        ((∃ s, r.1 = some s ∧ validSlotB s = true) ∨ (r.1 = none ∧ r.2 < 60)) := by
  intro slots
  induction slots with
  | nil =>
    intro next _ hn
    exact ⟨(none, next), by simp [assignLoop], Or.inr ⟨rfl, hn⟩⟩
  | cons t rest ih =>
    intro next hv hn
    by_cases hc : countJobsNamed jobs t < REMINDER_USER_LIMIT
    · exact ⟨(some t, next), by simp [assignLoop, hc], Or.inl ⟨t, rfl, hv t (by simp)⟩⟩
    · obtain ⟨⟨h1, m1⟩, hp, -, hm60⟩ := validSlotB_spec t (hv t (by simp))
      have hdrop : pyInt (strDrop t 3) = some m1 := parseTime_minute t h1 m1 hp
      obtain ⟨r, hr, hcond⟩ :=
        ih ((m1 + 1) % 60) (fun s hs => hv s (by simp [hs])) (Nat.mod_lt _ (by norm_num))
      refine ⟨r, ?_, hcond⟩
      rw [assignLoop, if_neg hc, hdrop]
      exact hr

/-- The complete assignment block returns a valid slot name whenever every
scanned slot is valid and every possible fallback name of the requested
hour is valid. -/
theorem assignSlot_ok (jobs : List Job) (slots : List String) (tr : String)
    (hv : ∀ s ∈ slots, validSlotB s = true)
    (hf : ∀ m, m < 60 → validSlotB (strTake tr 2 ++ ":" ++ zfill2 m) = true) :
    ∃ nm, assignSlot jobs slots tr = some nm ∧ validSlotB nm = true := by
  obtain ⟨⟨r1, r2⟩, hr, hcond⟩ := assignLoop_ok jobs slots 0 hv (by norm_num)
  rcases hcond with ⟨s, hs1, hs2⟩ | ⟨hn, h60⟩
  · cases hs1
    exact ⟨s, by rw [assignSlot, hr], hs2⟩
  · cases hn
    exact ⟨strTake tr 2 ++ ":" ++ zfill2 r2, by rw [assignSlot, hr], hf r2 h60⟩

/-- Every fallback name built from a requested AM option is valid. -/
theorem am_option_fallback_valid :
    ∀ t ∈ amReminderOptions, ∀ m, m < 60 →
      validSlotB (strTake t 2 ++ ":" ++ zfill2 m) = true := by decide

/-- Every fallback name built from a requested PM option is valid. -/
theorem pm_option_fallback_valid :
    ∀ t ∈ pmReminderOptions, ∀ m, m < 60 →
      validSlotB (strTake t 2 ++ ":" ++ zfill2 m) = true := by decide

/-- run_daily succeeds on a valid slot name. -/
theorem mkDailyJob_of_valid (nm : String) (chat : Nat) (h : validSlotB nm = true) :
    mkDailyJob nm chat = some ⟨nm, JobKind.daily, some chat⟩ := by
  simp [mkDailyJob, h]

/-- countJobsNamed-style counting splits over append. -/
theorem countOwned_append (a b : List Job) (chat : Nat) :
    countOwned (a ++ b) chat = countOwned a chat + countOwned b chat := by
  simp [countOwned, List.filter_append]

/-- A queue owning no job of a chat contains no job with its context. -/
theorem countOwned_zero_not_mem (jobs : List Job) (chat : Nat)
    (h : countOwned jobs chat = 0) : ∀ j ∈ jobs, ¬ j.ctx = some chat := by
  intro j hj hc
  unfold countOwned at h
  rw [List.length_eq_zero] at h
  have hmem : j ∈ jobs.filter fun j => j.ctx == some chat :=
    List.mem_filter.mpr ⟨hj, by simp [hc]⟩
  rw [h] at hmem
  cases hmem

/-- The completion step of the dialog: with a valid PM reply and both slot
assignments succeeding, set_reminder_pm appends exactly the two daily jobs
for this chat and marks the configuration complete. -/
theorem set_reminder_pm_spec (ud : UserData) (input : String) (jobs : List Job)
    (chat : Nat) (slotsAM slotsPM : List String) (nowH nowM : Nat)
    (t3 amName pmName : String)
    (hne : ud.options.isEmpty = false) (hin : input ∈ ud.options)
    (hra : ud.reminder_am = some t3)
    (hamAssign : assignSlot jobs slotsAM t3 = some amName)
    (hamValid : validSlotB amName = true)
    (hpmAssign : assignSlot (jobs ++ [⟨amName, JobKind.daily, some chat⟩]) slotsPM input =
      some pmName)
    (hpmValid : validSlotB pmName = true) :
    ∃ udF msgs res,
      set_reminder_pm ud input jobs chat slotsAM slotsPM nowH nowM =
        some (udF,
              jobs ++ [⟨amName, JobKind.daily, some chat⟩, ⟨pmName, JobKind.daily, some chat⟩],
              msgs, res) ∧
      udF.config_done = true := by
  obtain ⟨⟨hA, mA⟩, hpA, -, -⟩ := validSlotB_spec amName hamValid
  obtain ⟨⟨hP, mP⟩, hpP, -, -⟩ := validSlotB_spec pmName hpmValid
  cases hbd : backlogDue hA mA hP mP nowH nowM with
  | false =>
    refine ⟨{ ud with reminder_am := some amName, reminder_pm := some pmName, config_done := true },
      [mkMsg "Successfully finished setup!" none,
       mkMsg ("You will be sent a reminder at " ++ amName ++ " and " ++ pmName ++
              " everyday. You may also use /force_submit to manually submit your temperature.")
         none],
      HandlerResult.END, ?_, rfl⟩
    simp [set_reminder_pm, hne, hin, hra, hamAssign,
          mkDailyJob_of_valid amName chat hamValid, hpmAssign,
          mkDailyJob_of_valid pmName chat hpmValid, hpA, hpP, hbd]
  | true =>
    refine ⟨(force_submit { ud with reminder_am := some amName, reminder_pm := some pmName, config_done := true } nowH).1,
      mkMsg "Successfully finished setup!" none ::
        mkMsg ("You will be sent a reminder at " ++ amName ++ " and " ++ pmName ++
               " everyday. You may also use /force_submit to manually submit your temperature.")
          none ::
        (force_submit { ud with reminder_am := some amName, reminder_pm := some pmName, config_done := true } nowH).2.1,
      (force_submit { ud with reminder_am := some amName, reminder_pm := some pmName, config_done := true } nowH).2.2, ?_, ?_⟩
    · simp [set_reminder_pm, hne, hin, hra, hamAssign,
            mkDailyJob_of_valid amName chat hamValid, hpmAssign,
            mkDailyJob_of_valid pmName chat hpmValid, hpA, hpP, hbd]
    · simp [force_submit]

/-- Claim C5 (amended): for every sequence of valid replies through the
states SET_GROUP, SET_NAME, SET_REMINDER_AM, SET_REMINDER_PM (each reply in
the pending option set of its state, the chosen group still a key of the
refreshed options dict), starting from a queue owning no job of this
session and in which every scanned slot name is a valid bare slot - in
particular no live extra-reminder job of a requested hour is present (see
the counterexample for what happens otherwise) - the dialog ends with
config_done = true and exactly two daily recurring jobs owned by the
session. -/
theorem config_dialog_completes_with_two_jobs
    (g : GForm) (chat : Nat) (ud0 : UserData) (jobs0 : List Job)
    (i1 i2 i3 i4 : String) (slotsAM slotsPM : List String) (nowH nowM : Nat) (qid : Nat)
    (h1 : ud0.options.isEmpty = false)
    (h2 : i1 ∈ ud0.options)
    (hq : g.options_dict.lookup i1 = some qid)
    (h3 : i2 ∈ g.get_options qid)
    (h4 : i3 ∈ amReminderOptions)
    (h5 : i4 ∈ pmReminderOptions)
    (hvA : ∀ s ∈ slotsAM, validSlotB s = true)
    (hvP : ∀ s ∈ slotsPM, validSlotB s = true)
    (hown : countOwned jobs0 chat = 0) :
    ∃ udF jobsF msgs res,
      runConfigDialog g chat ud0 jobs0 i1 i2 i3 i4 slotsAM slotsPM nowH nowM =
        some (udF, jobsF, msgs, res) ∧
      udF.config_done = true ∧
      countOwned jobsF chat = 2 ∧
      ∀ j ∈ jobsF, j.ctx = some chat → j.kind = JobKind.daily := by
  obtain ⟨amName, hamAssign, hamValid⟩ :=
    assignSlot_ok jobs0 slotsAM i3 hvA (am_option_fallback_valid i3 h4)
  obtain ⟨pmName, hpmAssign, hpmValid⟩ :=
    assignSlot_ok (jobs0 ++ [⟨amName, JobKind.daily, some chat⟩]) slotsPM i4 hvP
      (pm_option_fallback_valid i4 h5)
  have hne2 : (g.get_options qid).isEmpty = false := by
    cases hgo : g.get_options qid with
    | nil => rw [hgo] at h3; cases h3
    | cons a t => rfl
  have hneAm : amReminderOptions.isEmpty = false := by decide
  obtain ⟨udF, msgs, res, hpm, hdone⟩ :=
    set_reminder_pm_spec
      { ud0 with group := i1, name := i2, options := pmReminderOptions, reminder_am := some i3 }
      i4 jobs0 chat slotsAM slotsPM nowH nowM i3 amName pmName
      rfl h5 rfl hamAssign hamValid hpmAssign hpmValid
  have e1 : set_group g ud0 i1 =
      some ({ ud0 with group := i1, options := g.get_options qid },
            [mkMsg "Select your name" (build_keyboard (g.get_options qid))],
            HandlerResult.toState STATE_SET_NAME) := by
    simp [set_group, h1, h2, hq]
  have e2 : set_name { ud0 with group := i1, options := g.get_options qid } i2 =
      ({ ud0 with group := i1, name := i2, options := amReminderOptions },
       [mkMsg "Set your daily AM temperature reminder:" (build_keyboard amReminderOptions)],
       HandlerResult.toState STATE_SET_REMINDER_AM) := by
    simp [set_name, hne2, h3]
  have e3 : set_reminder_am { ud0 with group := i1, name := i2, options := amReminderOptions } i3 =
      ({ ud0 with group := i1, name := i2, options := pmReminderOptions, reminder_am := some i3 },
       [mkMsg "Set your daily PM temperature reminder:" (build_keyboard pmReminderOptions)],
       HandlerResult.toState STATE_SET_REMINDER_PM) := by
    simp [set_reminder_am, hneAm, h4]
  refine ⟨udF,
    jobs0 ++ [⟨amName, JobKind.daily, some chat⟩, ⟨pmName, JobKind.daily, some chat⟩],
    msgs, res, ?_, hdone, ?_, ?_⟩
  · simp only [runConfigDialog, e1, e2, e3]
    exact hpm
  · rw [countOwned_append, hown]
    simp [countOwned]
  · intro j hj hctx
    rcases List.mem_append.mp hj with hj0 | hj2
    · exact absurd hctx (countOwned_zero_not_mem jobs0 chat hown j hj0)
    · simp only [List.mem_cons, List.mem_singleton] at hj2
      rcases hj2 with h | h | h
      · rw [h]
      · rw [h]
      · cases h

/-- Concrete instance of config_dialog_completes_with_two_jobs: the
end-to-end scenario GroupA, Alice, 08:00, 20:00 on an empty queue. -/
theorem config_dialog_completes_with_two_jobs_witness :
    ∃ udF jobsF msgs res,
      runConfigDialog sampleGForm 1 sampleUdStart [] "GroupA" "Alice" "08:00" "20:00"
          [] [] 12 0 =
        some (udF, jobsF, msgs, res) ∧
      udF.config_done = true ∧
      countOwned jobsF 1 = 2 ∧
      ∀ j ∈ jobsF, j.ctx = some 1 → j.kind = JobKind.daily :=
  config_dialog_completes_with_two_jobs sampleGForm 1 sampleUdStart []
    "GroupA" "Alice" "08:00" "20:00" [] [] 12 0 7
    (by decide) (by decide) (by decide) (by decide) (by decide) (by decide)
    (by simp) (by simp) (by decide)

/-- Claim C5 (counterexample): the claim as stated fails on a reachable
queue.  Every reply of the run is valid for its state and the session owns
no prior job, but the queue holds a live extra-reminder job named
"09:00-extra_reminder-10:00" (exactly what send_reminder schedules for a
09:00 reminder).  Its name passes the slot scan's filter for the requested
AM hour, so with the legitimate set iteration order below the occupancy
scan selects the compound name (it carries a single job, below the limit);
int(reminder_am[3:]) then raises ValueError on "00-extra_reminder-10:00"
and the handler aborts: the dialog ends without config_complete and
without the two daily jobs. -/
theorem config_dialog_crash_counterexample :
    sampleUdStart.options.contains "GroupA" = true ∧
    sampleGForm.options_dict.lookup "GroupA" = some 7 ∧
    (sampleGForm.get_options 7).contains "Alice" = true ∧
    amReminderOptions.contains "09:00" = true ∧
    pmReminderOptions.contains "20:00" = true ∧
    countOwned c5Jobs 1 = 0 ∧
    IsSetOrder ["09:00-extra_reminder-10:00"] c5Jobs "09:00" ∧
    runConfigDialog sampleGForm 1 sampleUdStart c5Jobs "GroupA" "Alice" "09:00" "20:00"
        ["09:00-extra_reminder-10:00"] [] 12 0 = none := by
  refine ⟨by decide, by decide, by decide, by decide, by decide, by decide, by decide,
    by decide⟩

end TempBot
